import Mathlib

/-!
Verification of the Code Shield page (`src/page.tsx`): a shallow embedding of
the page's form validation, workflow handlers (scan, per-finding remediation,
best practices), and result rendering, as explicit state passing over an
`AppState`.  Gateway calls (`handleVulnerabilityScan`, `handleRemediation`,
`handleBestPractices`) are external; each invocation's outcome is an input to
the corresponding handler (success with a result, an asynchronous failure, or
a synchronous raise — the latter two reach the same `catch` block of the
`async` handler).
-/

namespace CodeShield

/-! String helpers modelling the JavaScript string operations used by the
page: `String.prototype.includes` and `String.prototype.toLowerCase`
(on the ASCII severity strings involved, `toLowerCase` is per-character
`Char.toLower`, which Lean's `String.toLower` performs). -/

/-- Boolean test that the first character list is a prefix of the second. -/
def prefixCheck : List Char → List Char → Bool
  | [], _ => true
  | _ :: _, [] => false
  | p :: ps, c :: cs => p == c && prefixCheck ps cs

/-- Boolean test that `pat` occurs as a contiguous sublist of the second
argument; this is JavaScript `includes` on character lists. -/
def includesList (pat : List Char) : List Char → Bool
  | [] => prefixCheck pat []
  | c :: rest => prefixCheck pat (c :: rest) || includesList pat rest

/-- JavaScript `s.includes(pat)` on Lean strings. -/
def strIncludes (s pat : String) : Bool :=
  includesList pat.data s.data

theorem prefixCheck_iff (p s : List Char) : prefixCheck p s = true ↔ p <+: s := by
  induction p generalizing s with
  | nil => simp [prefixCheck]
  | cons a ps ih =>
    cases s with
    | nil => simp [prefixCheck]
    | cons c cs =>
      simp only [prefixCheck, Bool.and_eq_true, beq_iff_eq, ih, List.cons_prefix_cons]

theorem includesList_iff (pat s : List Char) : includesList pat s = true ↔ pat <:+: s := by
  induction s with
  | nil =>
    simp only [includesList, prefixCheck_iff, List.prefix_nil, List.infix_nil]
  | cons c cs ih =>
    simp only [includesList, Bool.or_eq_true, prefixCheck_iff, ih,
      List.infix_cons_iff]

theorem strIncludes_iff (s pat : String) :
    strIncludes s pat = true ↔ pat.data <:+: s.data :=
  includesList_iff pat.data s.data

/-! Data model, following `src/page.tsx` and the gateway output types. -/

/-- One finding of a vulnerability scan
(`AiPoweredVulnerabilityDetectionOutput.vulnerabilities[0]`). -/
structure Vulnerability where
  description : String
  severity : String
  location : String
  recommendation : String
  references : List String
  deriving DecidableEq, Repr

/-- The gateway scan response (`AiPoweredVulnerabilityDetectionOutput`). -/
structure ScanOutput where
  vulnerabilities : List Vulnerability
  deriving DecidableEq, Repr

/-- Badge variants returned by `getBadgeVariant`. -/
inductive BadgeVariant where
  | destructive
  | secondary
  | outline
  | default
  deriving DecidableEq, Repr

/-- Field-level validation errors produced by the two zod schemas:
`emptyLanguage` on the `language` field (`min(1)` of either schema),
`codeTooShort` / `codeTooLong` on the `code` field (`min(20)` / `max(8000)`
of the scan schema). -/
inductive FieldError where
  | emptyLanguage
  | codeTooShort
  | codeTooLong
  deriving DecidableEq, Repr

/-- A request/response call issued to the AI gateway, with the arguments the
page passes (`handleVulnerabilityScan`, `handleRemediation`,
`handleBestPractices`). -/
inductive GatewayCall where
  | scan (language code : String)
  | remediate (codeSnippet vulnerabilityDescription language : String)
  | bestPractices (language : String)
  deriving DecidableEq, Repr

/-- Outcome of one gateway invocation, supplied to the handler that awaited
it: a successful result, an asynchronous rejection, or a synchronous raise.
Inside the `async` handlers both failure forms land in the same `catch`. -/
inductive GatewayOutcome (α : Type) where
  | success (result : α)
  | failureAsync
  | raisedSync
  deriving DecidableEq, Repr

/-- Whether the outcome is one of the two failure forms. -/
def GatewayOutcome.isFailure : GatewayOutcome α → Bool
  | .success _ => false
  | .failureAsync => true
  | .raisedSync => true

/-- One toast pushed on the shared notification channel (`useToast`);
`isDestructive` records `variant: "destructive"`. -/
structure Toast where
  isDestructive : Bool
  title : String
  deriving DecidableEq, Repr

/-- The local state of one finding's `RemediationSection` component
(`isLoading` and `suggestion` `useState` hooks). -/
structure RemediationState where
  isLoading : Bool
  suggestion : Option String
  deriving DecidableEq, Repr

/-- The scan form's field values (react-hook-form state of `formSchema`). -/
structure ScanFormState where
  language : String
  code : String
  deriving DecidableEq, Repr

/-- The whole page's state: the scan form and workflow state
(`CodeShieldPage`), per-finding remediation component states (one per
rendered accordion item, in order), the best-practices section's state
(`BestPracticesSection`), and the shared toast list. -/
structure AppState where
  form : ScanFormState
  isLoading : Bool
  scanResult : Option ScanOutput
  remediations : List RemediationState
  bpLanguage : String
  bpLoading : Bool
  bestPractices : Option String
  toasts : List Toast
  deriving DecidableEq, Repr

/-- The fixed list populating both language selects (`supportedLanguages`). -/
def supportedLanguages : List String :=
  ["JavaScript", "Python", "Java", "C++", "C#", "TypeScript", "PHP", "Ruby",
   "Go", "Swift", "Kotlin", "Rust", "SQL", "HTML", "CSS"]

/-- The scan form schema (`formSchema`): `language` must be non-empty
(`min(1)`), `code` must be 20–8000 characters (`min(20)`, `max(8000)`).
Returns the list of field errors; empty means validation passed. -/
def validateScanForm (language code : String) : List FieldError :=
  (if language.length < 1 then [FieldError.emptyLanguage] else []) ++
  (if code.length < 20 then [FieldError.codeTooShort]
   else if code.length > 8000 then [FieldError.codeTooLong] else [])

/-- The best-practices form schema (`bestPracticesFormSchema`): `language`
must be non-empty. -/
def validateBPForm (language : String) : List FieldError :=
  if language.length < 1 then [FieldError.emptyLanguage] else []

/-- The severity-to-badge mapping (`getBadgeVariant` in `src/page.tsx`). -/
def getBadgeVariant (severity : String) : BadgeVariant :=
  let lowerSeverity := severity.toLower
  if strIncludes lowerSeverity "high" || strIncludes lowerSeverity "critical" then
    BadgeVariant.destructive
  else if strIncludes lowerSeverity "medium" then BadgeVariant.secondary
  else if strIncludes lowerSeverity "low" then BadgeVariant.outline
  else BadgeVariant.default

/-- Append a toast to the shared notification channel. -/
def pushToast (st : AppState) (t : Toast) : AppState :=
  { st with toasts := st.toasts ++ [t] }

/-- The success toast shown when a scan returns zero vulnerabilities. -/
def noVulnToast : Toast :=
  { isDestructive := false, title := "Scan Complete: No Vulnerabilities Found" }

/-- The destructive toast shown when the scan gateway call fails. -/
def scanFailedToast : Toast :=
  { isDestructive := true, title := "Scan Failed" }

/-- The destructive toast shown when a remediation gateway call fails. -/
def remFailedToast : Toast :=
  { isDestructive := true, title := "Failed to get remediation" }

/-- The destructive toast shown when the best-practices gateway call fails. -/
def bpFailedToast : Toast :=
  { isDestructive := true, title := "Failed to get best practices" }

/-- Fresh `RemediationSection` component state: both `useState` initials. -/
def initRem : RemediationState :=
  { isLoading := false, suggestion := none }

/-- Apply `f` to the element at index `i`, leaving every other element (and an
out-of-range list) unchanged. -/
def updateAt (l : List RemediationState) (i : Nat)
    (f : RemediationState → RemediationState) : List RemediationState :=
  match l, i with
  | [], _ => []
  | x :: xs, 0 => f x :: xs
  | x :: xs, n + 1 => x :: updateAt xs n f

/-! Workflow handlers. -/

/-- The scan form's `onSubmit` (lines 247–270): set `isLoading`, clear the
previous `scanResult` (which unmounts every accordion item, so each
`RemediationSection`'s local state is discarded), await the gateway scan of
the form's `{language, code}`; on success toast when zero findings and store
the result (remounting one fresh `RemediationSection` per finding); on
failure (caught asynchronously or raised synchronously) toast the error; in
all cases finish with `isLoading` false.  Also returns the gateway calls
issued. -/
def scanOnSubmit (st : AppState) (gw : GatewayOutcome ScanOutput) :
    AppState × List GatewayCall :=
  let st1 : AppState := { st with isLoading := true, scanResult := none, remediations := [] }
  let call := GatewayCall.scan st.form.language st.form.code
  match gw with
  | .success result =>
    let st2 := if result.vulnerabilities.length == 0 then pushToast st1 noVulnToast else st1
    ({ st2 with
        scanResult := some result,
        remediations := List.replicate result.vulnerabilities.length initRem,
        isLoading := false }, [call])
  | .failureAsync => ({ pushToast st1 scanFailedToast with isLoading := false }, [call])
  | .raisedSync => ({ pushToast st1 scanFailedToast with isLoading := false }, [call])

/-- `form.handleSubmit(onSubmit)` for the scan form: run the zod resolver;
when any field is invalid the submission stops (field messages render, no
handler body runs, no gateway call); otherwise run `onSubmit`. -/
def handleScanSubmit (st : AppState) (gw : GatewayOutcome ScanOutput) :
    AppState × List GatewayCall :=
  if validateScanForm st.form.language st.form.code = [] then scanOnSubmit st gw
  else (st, [])

/-- The synchronous half of `onGetRemediation` for the finding at index `i`
of the current scan result: set this finding's loading flag, clear its prior
suggestion, and issue the gateway `handleRemediation` call.  The call site
(lines 442–447) passes `form.getValues('language')` and
`form.getValues('code')` — the form's current values — plus this finding's
description.  With no current scan result or no finding at `i` there is no
such section rendered, so nothing happens. -/
def remediateStart (st : AppState) (i : Nat) : AppState × List GatewayCall :=
  match st.scanResult with
  | none => (st, [])
  | some result =>
    match result.vulnerabilities[i]? with
    | none => (st, [])
    | some vuln =>
      let rems := updateAt st.remediations i
        (fun _ => { isLoading := true, suggestion := none })
      ({ st with remediations := rems },
       [GatewayCall.remediate st.form.code vuln.description st.form.language])

/-- The resumption of `onGetRemediation` for finding `i` once its gateway
call settles: on success store the suggestion, on failure (async or sync
raise) toast the scoped error and leave the suggestion as it is (it was
cleared at start); `finally` clears this finding's loading flag. -/
def remediateFinish (st : AppState) (i : Nat) (gw : GatewayOutcome String) : AppState :=
  match gw with
  | .success text =>
    let rems := updateAt st.remediations i
      (fun _ => { isLoading := false, suggestion := some text })
    { st with remediations := rems }
  | .failureAsync =>
    let rems := updateAt st.remediations i (fun r => { r with isLoading := false })
    pushToast { st with remediations := rems } remFailedToast
  | .raisedSync =>
    let rems := updateAt st.remediations i (fun r => { r with isLoading := false })
    pushToast { st with remediations := rems } remFailedToast

/-- The best-practices form's `onSubmit` (lines 135–152): set its loading
flag, clear the prior result, await `handleBestPractices` on the selected
language; store the markup on success, toast on failure, always finish with
the loading flag false. -/
def bpOnSubmit (st : AppState) (gw : GatewayOutcome String) :
    AppState × List GatewayCall :=
  let st1 : AppState := { st with bpLoading := true, bestPractices := none }
  let call := GatewayCall.bestPractices st.bpLanguage
  match gw with
  | .success text =>
    ({ st1 with bestPractices := some text, bpLoading := false }, [call])
  | .failureAsync => ({ pushToast st1 bpFailedToast with bpLoading := false }, [call])
  | .raisedSync => ({ pushToast st1 bpFailedToast with bpLoading := false }, [call])

/-- `form.handleSubmit(onSubmit)` for the best-practices form. -/
def handleBPSubmit (st : AppState) (gw : GatewayOutcome String) :
    AppState × List GatewayCall :=
  if validateBPForm st.bpLanguage = [] then bpOnSubmit st gw
  else (st, [])

/-- Editing the scan form's code field (the textarea's `onChange`, or
`form.setValue('code', ...)`). -/
def setCodeField (st : AppState) (c : String) : AppState :=
  { st with form := { st.form with code := c } }

/-- Editing the scan form's language field (the select's `onValueChange`). -/
def setLanguageField (st : AppState) (l : String) : AppState :=
  { st with form := { st.form with language := l } }

/-- `handleFileChange` (lines 235–245): read `event.target.files?.[0]`; when
a file is present, replace the code field with its decoded text; otherwise
(empty file list, e.g. a cancelled picker) do nothing.  `files` is the
event's file list, each file given by its decoded text content. -/
def handleFileChange (st : AppState) (files : List String) : AppState :=
  match files.head? with
  | none => st
  | some text => setCodeField st text

/-- One rendered finding panel (an `AccordionItem` of the results card):
the description shown in the trigger together with its severity badge. -/
structure FindingPanel where
  description : String
  severity : String
  badge : BadgeVariant
  deriving DecidableEq, Repr

/-- The finding panels rendered for the current state (lines 395–417):
nothing without a scan result or with zero findings; otherwise one panel per
vulnerability, in sequence order, badge-classified by `getBadgeVariant`. -/
def renderFindingPanels (st : AppState) : List FindingPanel :=
  match st.scanResult with
  | none => []
  | some result =>
    if result.vulnerabilities.length > 0 then
      result.vulnerabilities.map
        (fun v => { description := v.description, severity := v.severity,
                    badge := getBadgeVariant v.severity })
    else []

/-- The page's initial state: both forms' `defaultValues` are empty strings,
nothing is loading, no results, no toasts. -/
def initialAppState : AppState :=
  { form := { language := "", code := "" }, isLoading := false,
    scanResult := none, remediations := [], bpLanguage := "",
    bpLoading := false, bestPractices := none, toasts := [] }

/-! Helper lemmas. -/

theorem updateAt_get_ne (l : List RemediationState) (i j : Nat)
    (f : RemediationState → RemediationState) (h : i ≠ j) :
    (updateAt l i f)[j]? = l[j]? := by
  induction l generalizing i j with
  | nil => simp [updateAt]
  | cons x xs ih =>
    cases i with
    | zero =>
      cases j with
      | zero => exact absurd rfl h
      | succ m => simp [updateAt]
    | succ n =>
      cases j with
      | zero => simp [updateAt]
      | succ m => simpa [updateAt] using ih n m (by omega)

theorem updateAt_get_self (l : List RemediationState) (i : Nat)
    (f : RemediationState → RemediationState) :
    (updateAt l i f)[i]? = (l[i]?).map f := by
  induction l generalizing i with
  | nil => simp [updateAt]
  | cons x xs ih =>
    cases i with
    | zero => simp [updateAt]
    | succ n => simpa [updateAt] using ih n

theorem length_pos_of_ne_empty (l : String) (h : l ≠ "") : 1 ≤ l.length := by
  cases l with
  | mk data =>
    cases data with
    | nil => exact absurd rfl h
    | cons a as =>
      simp [String.length]

/-! Claim theorems. -/

/-- C10: a file-input change event whose file list is empty (for example a
cancelled file picker) performs no state update: the code field and all
other page state retain their prior values. -/
theorem handleFileChange_empty_noop (st : AppState) : handleFileChange st [] = st :=
  rfl

/-- C5: the badge variant is determined by case-insensitive substring
matching, first match winning in this order: a severity whose lowercasing
contains "high" or "critical" maps to the destructive style; otherwise one
containing "medium" to the secondary style; otherwise one containing "low"
to the outline style; any other string to the default style. -/
theorem getBadgeVariant_char : ∀ s : String,
    (getBadgeVariant s = BadgeVariant.destructive ↔
      ("high".data <:+: s.toLower.data ∨ "critical".data <:+: s.toLower.data)) ∧
    (getBadgeVariant s = BadgeVariant.secondary ↔
      (¬ ("high".data <:+: s.toLower.data ∨ "critical".data <:+: s.toLower.data) ∧
        "medium".data <:+: s.toLower.data)) ∧
    (getBadgeVariant s = BadgeVariant.outline ↔
      (¬ ("high".data <:+: s.toLower.data ∨ "critical".data <:+: s.toLower.data) ∧
        ¬ "medium".data <:+: s.toLower.data ∧ "low".data <:+: s.toLower.data)) ∧
    (getBadgeVariant s = BadgeVariant.default ↔
      (¬ ("high".data <:+: s.toLower.data ∨ "critical".data <:+: s.toLower.data) ∧
        ¬ "medium".data <:+: s.toLower.data ∧ ¬ "low".data <:+: s.toLower.data)) := by
  intro s
  have e : ∀ pat : List Char,
      (pat <:+: s.toLower.data) ↔ (includesList pat s.toLower.data = true) :=
    fun pat => (includesList_iff pat s.toLower.data).symm
  rw [e, e, e, e]
  cases h1 : includesList "high".data s.toLower.data <;>
    cases h2 : includesList "critical".data s.toLower.data <;>
      cases h3 : includesList "medium".data s.toLower.data <;>
        cases h4 : includesList "low".data s.toLower.data <;>
          simp [getBadgeVariant, strIncludes, h1, h2, h3, h4]

/-- C3: the scan gateway is invoked exactly when validation passes; the code
field fails with the too-short error exactly when its length is under 20 and
with the too-long error exactly when its length is over 8000 (so lengths of
exactly 20 and exactly 8000 pass the code check), and validation passes as a
whole exactly when the language is non-empty and the code length lies in
[20, 8000]. -/
theorem scan_code_length_gate :
    ∀ (st : AppState) (gw : GatewayOutcome ScanOutput) (l c : String),
    (FieldError.codeTooShort ∈ validateScanForm l c ↔ c.length < 20) ∧
    (FieldError.codeTooLong ∈ validateScanForm l c ↔ 8000 < c.length) ∧
    (validateScanForm l c = [] ↔
      1 ≤ l.length ∧ 20 ≤ c.length ∧ c.length ≤ 8000) ∧
    ((handleScanSubmit st gw).2 ≠ [] ↔
      validateScanForm st.form.language st.form.code = []) := by
  intro st gw l c
  refine ⟨?_, ?_, ?_, ?_⟩
  · unfold validateScanForm
    split_ifs <;> simp <;> omega
  · unfold validateScanForm
    split_ifs <;> simp <;> omega
  · unfold validateScanForm
    split_ifs <;> simp <;> omega
  · unfold handleScanSubmit
    split_ifs with h
    · cases gw <;> simp [scanOnSubmit, h]
    · simp [h]

/-- C4: an empty language selection makes validation of either form fail on
the language field, and the corresponding submission issues no gateway
call. -/
theorem empty_language_rejected (st : AppState) (gwS : GatewayOutcome ScanOutput)
    (gwB : GatewayOutcome String)
    (hs : st.form.language = "") (hb : st.bpLanguage = "") :
    FieldError.emptyLanguage ∈ validateScanForm st.form.language st.form.code ∧
    (handleScanSubmit st gwS).2 = [] ∧
    validateBPForm st.bpLanguage = [FieldError.emptyLanguage] ∧
    (handleBPSubmit st gwB).2 = [] := by
  have hlen : String.length "" < 1 := by decide
  refine ⟨?_, ?_, ?_, ?_⟩
  · rw [hs]
    unfold validateScanForm
    simp [hlen]
  · unfold handleScanSubmit
    rw [hs]
    unfold validateScanForm
    simp [hlen]
  · rw [hb]
    unfold validateBPForm
    simp [hlen]
  · unfold handleBPSubmit
    rw [hb]
    unfold validateBPForm
    simp [hlen]

/-- Witness for the empty-language rejection at the initial state, whose two
language fields default to the empty string. -/
theorem empty_language_rejected_witness :
    (handleScanSubmit initialAppState
        (GatewayOutcome.success { vulnerabilities := [] })).2 = [] ∧
    (handleBPSubmit initialAppState (GatewayOutcome.success "ok")).2 = [] := by
  have h := empty_language_rejected initialAppState
    (GatewayOutcome.success { vulnerabilities := [] })
    (GatewayOutcome.success "ok") rfl rfl
  exact ⟨h.2.1, h.2.2.2⟩

/-! Concrete scenario data used by counterexamples and witnesses. -/

/-- A 25-character code snippet, long enough to pass the scan schema. -/
def sampleCode : String := "aaaaaaaaaaaaaaaaaaaaaaaaa"

/-- A different 25-character code text, typed by the user after a scan. -/
def editedCode : String := "bbbbbbbbbbbbbbbbbbbbbbbbb"

/-- A concrete finding used in scenarios. -/
def sampleVuln : Vulnerability :=
  { description := "SQL injection", severity := "High", location := "line 1",
    recommendation := "Use parameterized queries", references := [] }

/-- A second concrete finding used in scenarios. -/
def sampleVuln2 : Vulnerability :=
  { description := "Hardcoded credentials", severity := "Medium",
    location := "line 2", recommendation := "Load secrets from the environment",
    references := [] }

/-- Scenario: the scan form filled in with Python and `sampleCode`. -/
def pySubmitted : AppState :=
  { initialAppState with form := { language := "Python", code := sampleCode } }

/-- Scenario: the state after that scan succeeds with one finding. -/
def pyAfterScan : AppState :=
  (handleScanSubmit pySubmitted
    (GatewayOutcome.success { vulnerabilities := [sampleVuln] })).1

/-- Scenario: the user edits the code field after the scan completed. -/
def pyAfterEdit : AppState := setCodeField pyAfterScan editedCode

/-- Scenario: the scan form filled in with a non-empty language that is not
in `supportedLanguages`. -/
def rogueLangState : AppState :=
  { initialAppState with form := { language := "Brainfuck", code := sampleCode } }

/-- Scenario: a current scan result with two findings, the second finding's
remediation already pending (loading, no suggestion yet). -/
def twoFindingState : AppState :=
  { initialAppState with
      form := { language := "Python", code := sampleCode },
      scanResult := some { vulnerabilities := [sampleVuln, sampleVuln2] },
      remediations := [initRem, { isLoading := true, suggestion := none }] }

/-- C1 counterexample: submit a scan with `sampleCode`, let it succeed with
one finding, then edit the code field; invoking remediation for the still
displayed finding sends the gateway the edited code — not the language/code
of the originally submitted scan request, whose code was `sampleCode`. -/
theorem remediation_sends_edited_code :
    (remediateStart pyAfterEdit 0).2
      = [GatewayCall.remediate editedCode "SQL injection" "Python"] ∧
    editedCode ≠ sampleCode := by decide

/-- C1 amended: the remediation invocation for finding `i` of the current
scan result sends the gateway the form's current code and language values as
read at the call site (`form.getValues`), together with that finding's
description; these coincide with the originally submitted scan request's
values only as long as the user has not edited the fields since that
submission. -/
theorem remediation_sends_current_form_values (st : AppState) (i : Nat)
    (result : ScanOutput) (vuln : Vulnerability)
    (hres : st.scanResult = some result)
    (hv : result.vulnerabilities[i]? = some vuln) :
    (remediateStart st i).2
      = [GatewayCall.remediate st.form.code vuln.description st.form.language] := by
  unfold remediateStart
  rw [hres]
  simp only [hv]

/-- Witness for the amended remediation claim, at the state right after the
scenario scan (fields not yet edited). -/
theorem remediation_sends_current_form_values_witness :
    (remediateStart pyAfterScan 0).2
      = [GatewayCall.remediate pyAfterScan.form.code sampleVuln.description
          pyAfterScan.form.language] :=
  remediation_sends_current_form_values pyAfterScan 0
    { vulnerabilities := [sampleVuln] } sampleVuln (by decide) (by decide)

/-- C2 counterexample: "Brainfuck" is non-empty and not in the supported
set, yet the scan schema accepts it and the submission reaches the gateway. -/
theorem unsupported_language_not_rejected :
    "Brainfuck" ≠ "" ∧ "Brainfuck" ∉ supportedLanguages ∧
    validateScanForm "Brainfuck" sampleCode = [] ∧
    (rogueLangState.form.language = "Brainfuck" ∧
      (handleScanSubmit rogueLangState
          (GatewayOutcome.success { vulnerabilities := [] })).2
        = [GatewayCall.scan "Brainfuck" sampleCode]) := by decide

/-- C2 amended: the schema checks only that the language is non-empty — any
non-empty language string passes the language check, whether or not it is in
the supported set, and validation as a whole then depends only on the code
length. -/
theorem language_validation_nonempty_only (l c : String) (h : l ≠ "") :
    FieldError.emptyLanguage ∉ validateScanForm l c ∧
    (validateScanForm l c = [] ↔ 20 ≤ c.length ∧ c.length ≤ 8000) := by
  have hlen : ¬ l.length < 1 := by
    have := length_pos_of_ne_empty l h
    omega
  constructor
  · unfold validateScanForm
    simp only [if_neg hlen]
    split_ifs <;> simp
  · unfold validateScanForm
    simp only [if_neg hlen]
    split_ifs <;> simp <;> omega

/-- Witness for the amended language-validation claim at the unsupported
language "Brainfuck". -/
theorem language_validation_nonempty_only_witness :
    FieldError.emptyLanguage ∉ validateScanForm "Brainfuck" sampleCode ∧
    (validateScanForm "Brainfuck" sampleCode = []
      ↔ 20 ≤ sampleCode.length ∧ sampleCode.length ≤ 8000) :=
  language_validation_nonempty_only "Brainfuck" sampleCode (by decide)

theorem remediateStart_eq (st : AppState) (i : Nat) (result : ScanOutput)
    (vuln : Vulnerability) (hres : st.scanResult = some result)
    (hv : result.vulnerabilities[i]? = some vuln) :
    remediateStart st i
      = ({ st with remediations := updateAt st.remediations i (fun _ => { isLoading := true, suggestion := none }) },
         [GatewayCall.remediate st.form.code vuln.description st.form.language]) := by
  unfold remediateStart
  rw [hres]
  simp only [hv]

/-- C6: each workflow's loading flag is false once its invocation finishes,
for every gateway outcome — success, asynchronous failure, or synchronous
raise: the scan page's `isLoading` after the scan `onSubmit`, the invoked
finding's remediation loading flag after `onGetRemediation` completes, and
the best-practices section's loading flag after its `onSubmit`. -/
theorem loading_false_after_completion (st : AppState)
    (gwS : GatewayOutcome ScanOutput) (gwR gwB : GatewayOutcome String)
    (i : Nat) (h : i < st.remediations.length) :
    (scanOnSubmit st gwS).1.isLoading = false ∧
    ((remediateFinish st i gwR).remediations[i]?.map RemediationState.isLoading
      = some false) ∧
    (bpOnSubmit st gwB).1.bpLoading = false := by
  have hx : st.remediations[i]? = some st.remediations[i] :=
    List.getElem?_eq_getElem h
  refine ⟨?_, ?_, ?_⟩
  · cases gwS <;> rfl
  · cases gwR <;> simp [remediateFinish, pushToast, updateAt_get_self, hx]
  · cases gwB <;> rfl

/-- Witness for the loading-flag reset at a state with one rendered finding,
covering one outcome of each kind. -/
theorem loading_false_after_completion_witness :
    (scanOnSubmit pyAfterScan
        (GatewayOutcome.success { vulnerabilities := [] })).1.isLoading = false ∧
    ((remediateFinish pyAfterScan 0 GatewayOutcome.failureAsync).remediations[0]?.map
        RemediationState.isLoading = some false) ∧
    (bpOnSubmit pyAfterScan GatewayOutcome.raisedSync).1.bpLoading = false :=
  loading_false_after_completion pyAfterScan
    (GatewayOutcome.success { vulnerabilities := [] })
    GatewayOutcome.failureAsync GatewayOutcome.raisedSync 0 (by decide)

/-- C7: a failing gateway call touches only its own workflow.  A failed scan
leaves the form fields exactly as submitted, pushes one error toast, leaves
the scan result absent, and leaves the best-practices result alone.  A
failed remediation (begun on finding `i` of the current result) leaves the
scan result, form, and best-practices result untouched, pushes one scoped
error toast, and leaves its own suggestion absent.  A failed best-practices
call leaves its own result absent, pushes one error toast, and leaves the
scan result and form untouched. -/
theorem failure_effects_scoped (st : AppState) (i : Nat)
    (gwS : GatewayOutcome ScanOutput) (gwR gwB : GatewayOutcome String)
    (result : ScanOutput) (vuln : Vulnerability)
    (hS : gwS.isFailure = true) (hR : gwR.isFailure = true)
    (hB : gwB.isFailure = true)
    (hres : st.scanResult = some result)
    (hv : result.vulnerabilities[i]? = some vuln)
    (hi : i < st.remediations.length) :
    ((scanOnSubmit st gwS).1.form = st.form ∧
     (scanOnSubmit st gwS).1.scanResult = none ∧
     (scanOnSubmit st gwS).1.toasts = st.toasts ++ [scanFailedToast] ∧
     (scanOnSubmit st gwS).1.bestPractices = st.bestPractices) ∧
    ((remediateFinish (remediateStart st i).1 i gwR).scanResult = st.scanResult ∧
     (remediateFinish (remediateStart st i).1 i gwR).form = st.form ∧
     (remediateFinish (remediateStart st i).1 i gwR).bestPractices = st.bestPractices ∧
     (remediateFinish (remediateStart st i).1 i gwR).toasts
       = st.toasts ++ [remFailedToast] ∧
     ((remediateFinish (remediateStart st i).1 i gwR).remediations[i]?.map
        RemediationState.suggestion = some none)) ∧
    ((bpOnSubmit st gwB).1.bestPractices = none ∧
     (bpOnSubmit st gwB).1.scanResult = st.scanResult ∧
     (bpOnSubmit st gwB).1.form = st.form ∧
     (bpOnSubmit st gwB).1.toasts = st.toasts ++ [bpFailedToast]) := by
  have hstart := remediateStart_eq st i result vuln hres hv
  have hx : st.remediations[i]? = some st.remediations[i] :=
    List.getElem?_eq_getElem hi
  refine ⟨?_, ?_, ?_⟩
  · cases gwS with
    | success r => simp [GatewayOutcome.isFailure] at hS
    | failureAsync => exact ⟨rfl, rfl, rfl, rfl⟩
    | raisedSync => exact ⟨rfl, rfl, rfl, rfl⟩
  · rw [hstart]
    cases gwR with
    | success r => simp [GatewayOutcome.isFailure] at hR
    | failureAsync =>
      refine ⟨rfl, rfl, rfl, rfl, ?_⟩
      simp [remediateFinish, pushToast, updateAt_get_self, hx]
    | raisedSync =>
      refine ⟨rfl, rfl, rfl, rfl, ?_⟩
      simp [remediateFinish, pushToast, updateAt_get_self, hx]
  · cases gwB with
    | success r => simp [GatewayOutcome.isFailure] at hB
    | failureAsync => exact ⟨rfl, rfl, rfl, rfl⟩
    | raisedSync => exact ⟨rfl, rfl, rfl, rfl⟩

/-- Witness for the scoped failure effects at the scenario state after a
successful one-finding scan. -/
theorem failure_effects_scoped_witness :
    (scanOnSubmit pyAfterScan GatewayOutcome.failureAsync).1.scanResult = none ∧
    (remediateFinish (remediateStart pyAfterScan 0).1 0
        GatewayOutcome.raisedSync).scanResult = pyAfterScan.scanResult ∧
    (bpOnSubmit pyAfterScan GatewayOutcome.failureAsync).1.bestPractices = none := by
  have h := failure_effects_scoped pyAfterScan 0 GatewayOutcome.failureAsync
    GatewayOutcome.raisedSync GatewayOutcome.failureAsync
    { vulnerabilities := [sampleVuln] } sampleVuln rfl rfl rfl (by decide)
    (by decide) (by decide)
  exact ⟨h.1.2.1, h.2.1.1, h.2.2.1⟩

/-- C8: after a successful scan with zero findings, no finding panel renders
and the success toast is pushed; after a successful scan with a non-empty
finding sequence, exactly one panel renders per finding, in the returned
order, each carrying the badge assigned by `getBadgeVariant`, and no toast
is pushed. -/
theorem scan_success_rendering (st st2 : AppState) (r0 r : ScanOutput)
    (h0 : r0.vulnerabilities = []) (h1 : r.vulnerabilities ≠ []) :
    (renderFindingPanels (scanOnSubmit st (GatewayOutcome.success r0)).1 = [] ∧
     (scanOnSubmit st (GatewayOutcome.success r0)).1.toasts
       = st.toasts ++ [noVulnToast]) ∧
    (renderFindingPanels (scanOnSubmit st2 (GatewayOutcome.success r)).1
       = r.vulnerabilities.map
           (fun v => { description := v.description, severity := v.severity,
                       badge := getBadgeVariant v.severity }) ∧
     (renderFindingPanels (scanOnSubmit st2 (GatewayOutcome.success r)).1).length
       = r.vulnerabilities.length ∧
     (scanOnSubmit st2 (GatewayOutcome.success r)).1.toasts = st2.toasts) := by
  have hlen : r.vulnerabilities.length ≠ 0 := by
    simpa [List.length_eq_zero] using h1
  have hpos : 0 < r.vulnerabilities.length := Nat.pos_of_ne_zero hlen
  refine ⟨⟨?_, ?_⟩, ?_, ?_, ?_⟩
  · simp [scanOnSubmit, renderFindingPanels, h0]
  · simp [scanOnSubmit, pushToast, h0]
  · simp [scanOnSubmit, renderFindingPanels, hlen, hpos]
  · simp [scanOnSubmit, renderFindingPanels, hlen, hpos, List.length_map]
  · simp [scanOnSubmit, pushToast, hlen]

/-- Witness for the scan rendering claim: a zero-finding response and a
one-finding response at the initial state. -/
theorem scan_success_rendering_witness :
    renderFindingPanels
      (scanOnSubmit initialAppState
        (GatewayOutcome.success { vulnerabilities := [] })).1 = [] ∧
    renderFindingPanels
      (scanOnSubmit initialAppState
        (GatewayOutcome.success { vulnerabilities := [sampleVuln] })).1
      = [{ description := sampleVuln.description, severity := sampleVuln.severity,
           badge := getBadgeVariant sampleVuln.severity }] := by
  have h := scan_success_rendering initialAppState initialAppState
    { vulnerabilities := [] } { vulnerabilities := [sampleVuln] } rfl (by decide)
  exact ⟨h.1.1, h.2.1⟩

/-- C9: remediation events for finding `i` leave every other finding `j`'s
remediation state — pending or displayed — untouched, and leave the form,
the scan result, and the best-practices result untouched, at both the start
of the invocation and at its completion (any outcome). -/
theorem remediation_per_finding_independent (st : AppState) (i j : Nat)
    (gw : GatewayOutcome String) (h : i ≠ j) :
    ((remediateStart st i).1.remediations[j]? = st.remediations[j]? ∧
     (remediateStart st i).1.form = st.form ∧
     (remediateStart st i).1.scanResult = st.scanResult ∧
     (remediateStart st i).1.bestPractices = st.bestPractices) ∧
    ((remediateFinish st i gw).remediations[j]? = st.remediations[j]? ∧
     (remediateFinish st i gw).form = st.form ∧
     (remediateFinish st i gw).scanResult = st.scanResult ∧
     (remediateFinish st i gw).bestPractices = st.bestPractices) := by
  constructor
  · unfold remediateStart
    split
    · exact ⟨rfl, rfl, rfl, rfl⟩
    · split
      · exact ⟨rfl, rfl, rfl, rfl⟩
      · exact ⟨updateAt_get_ne st.remediations i j _ h, rfl, rfl, rfl⟩
  · cases gw with
    | success text =>
      exact ⟨updateAt_get_ne st.remediations i j _ h, rfl, rfl, rfl⟩
    | failureAsync =>
      exact ⟨updateAt_get_ne st.remediations i j _ h, rfl, rfl, rfl⟩
    | raisedSync =>
      exact ⟨updateAt_get_ne st.remediations i j _ h, rfl, rfl, rfl⟩

/-- Witness for per-finding independence: with finding 1's remediation
pending, starting finding 0's remediation leaves finding 1's state as it
was. -/
theorem remediation_per_finding_independent_witness :
    (remediateStart twoFindingState 0).1.remediations[1]?
      = twoFindingState.remediations[1]? :=
  (remediation_per_finding_independent twoFindingState 0 1
    GatewayOutcome.failureAsync (by decide)).1.1

end CodeShield
